import Mathlib

/-!
# Document-Builder: shallow embedding and verification

A shallow embedding of the core of the Document-Builder repository:

* `services/content_intake/services/session_service.py` (session lifecycle,
  normalization, idempotent creation),
* `services/gestalt_engine/engines/gestalt_principles.py` (typographic rules),
* `services/gestalt_engine/engines/design_engine.py` (layout generation),
* `services/gestalt_engine/services/proposal_service.py` (proposal creation).

Python dictionaries with optional keys are modelled as structures of `Option`
fields; `dict.get(k, d)` becomes `Option.getD`.  Python exceptions become
`Except String`.  Fractional constants (spacing, scale ratios, scores) are
modelled as exact rationals; the isolated points where IEEE doubles deviate
from exact rational arithmetic are flagged in the doc comment of the
definition concerned.  Randomly generated identifier fields
(`uuid4`-defaulted `element_id` / `unit_id`) and wall-clock timestamps are
not modelled: no property below depends on them.
-/

namespace DocBuilder

/-- `isOkE e` is `true` iff the `Except` value is a success. -/
def isOkE {ε α : Type} : Except ε α → Bool
  | .ok _ => true
  | .error _ => false

/-- The head of a non-empty list (with default) is a member of the list. -/
theorem headD_mem_of_ne_nil {α : Type} (l : List α) (d : α) (h : l ≠ []) :
    l.headD d ∈ l := by
  cases l with
  | nil => exact absurd rfl h
  | cons a t => simp [List.headD]

/-! ## Python string primitives -/

/-- Python `str.isspace` on the ASCII whitespace characters recognised by
`str.split()` with no argument. -/
def pyIsSpace (c : Char) : Bool :=
  c = ' ' || c = '\t' || c = '\n' || c = '\x0d' || c = '\x0b' || c = '\x0c'

/-- Token counter for Python `len(s.split())`: counts maximal runs of
non-whitespace characters.  The `inWord` flag records whether the previous
character belonged to a token. -/
def wordCountAux : List Char → Bool → Nat
  | [], _ => 0
  | c :: cs, inWord =>
    if pyIsSpace c then wordCountAux cs false
    else (if inWord then 0 else 1) + wordCountAux cs true

/-- Python `len(s.split())`: number of whitespace-delimited tokens. -/
def pyWordCount (s : String) : Nat :=
  wordCountAux s.toList false

/-- Python `s.split(sep)` for a single-character separator, on char lists.
`[]` maps to `[[]]` exactly as `"".split(sep) == [""]`. -/
def splitCharAux (sep : Char) : List Char → List (List Char)
  | [] => [[]]
  | c :: cs =>
    match splitCharAux sep cs with
    | [] => if c = sep then [[], []] else [[c]]
    | g :: gs => if c = sep then [] :: g :: gs else (c :: g) :: gs

/-- Python `s.split(sep)` for a single-character separator. -/
def pySplit (sep : Char) (s : String) : List String :=
  (splitCharAux sep s.toList).map List.asString

/-- Python `round` (banker's rounding, round-half-to-even) on an exact
rational. -/
def pyRound (q : ℚ) : ℤ :=
  let f := ⌊q⌋
  let r := q - f
  if r < 1/2 then f
  else if 1/2 < r then f + 1
  else if f % 2 = 0 then f else f + 1

/-! ## IEEE-754 double-precision rounding

`_normalize_content` evaluates `(word_count / 200) * 60` in Python floats.
The two roundings involved (the true division, then the product) are
modelled exactly: a positive double is a dyadic `m · 2^ex` with a 53-bit
mantissa, and each operation rounds its exact rational result to the
nearest such dyadic, ties to even.  Overflow and subnormals are far outside
the magnitudes reachable here and are not modelled. -/

/-- Bit length of a natural number, with explicit fuel so that the kernel
can evaluate it. -/
def natBitsAux : Nat → Nat → Nat
  | 0, _ => 0
  | fuel + 1, n => if n = 0 then 0 else natBitsAux fuel (n / 2) + 1

/-- Bit length of a natural number (`natBits 0 = 0`, `natBits 5 = 3`). -/
def natBits (n : Nat) : Nat :=
  natBitsAux n n

/-- `⌊log₂ (a / b)⌋` for positive naturals `a`, `b`. -/
def floorLog2 (a b : Nat) : Int :=
  let e0 : Int := (natBits a : Int) - (natBits b : Int)
  if e0 ≥ 0 then
    if b * 2 ^ e0.toNat ≤ a then e0 else e0 - 1
  else
    if b ≤ a * 2 ^ (-e0).toNat then e0 else e0 - 1

/-- Round the positive rational `a / b` to 53 significant bits, nearest,
ties to even: returns `(m, ex)` with value `m · 2^ex` and
`2^52 ≤ m < 2^53`. -/
def round53 (a b : Nat) : Nat × Int :=
  let e := floorLog2 a b
  let shift : Int := 52 - e
  let n := a * 2 ^ (max shift 0).toNat
  let d := b * 2 ^ (max (-shift) 0).toNat
  let q := n / d
  let r := n % d
  let m :=
    if 2 * r > d then q + 1
    else if 2 * r < d then q
    else if q % 2 = 0 then q else q + 1
  if m = 2 ^ 53 then (2 ^ 52, e - 51) else (m, e - 52)

/-! ## Content-intake service

From `services/content_intake/services/session_service.py` and the data
model in `services/content_intake/models/session.py` /
`services/content_intake/database/models.py`.  The SQLAlchemy session store
is modelled as an association list keyed by `session_id`; the idempotency
table as an association list from key to `session_id` (the 24-hour
`expires_at` column is written by the code but never consulted on lookup,
so it is not modelled).  `datetime` columns (`created_at`, `updated_at`)
are not modelled. -/

namespace Intake

/-- `SessionStatus` enum (`models/session.py`). -/
inductive SessionStatus : Type
  | draft
  | normalizing
  | ready
  | layoutQueued
  | layoutProcessing
  | layoutComplete
  | failed
deriving DecidableEq, Repr

/-- The two block metrics written by `_normalize_content`.  The persisted
`metrics` column is a free-form JSON map; only these two keys are ever
written or read by the core, so the map is modelled by two optional
fields. -/
structure Metrics : Type where
  word_count : Option Nat := none
  estimated_reading_seconds : Option Nat := none
deriving DecidableEq, Repr

/-- A stored content block (`ContentBlockModel`). -/
structure ContentBlock : Type where
  block_id : String
  type : String
  level : Nat := 0
  sequence : Nat
  text : String
  language : String := "en"
  detected_role : Option String := none
  metrics : Metrics := {}
deriving DecidableEq, Repr

/-- A stored image asset (`ImageAssetModel`). -/
structure ImageAsset : Type where
  image_id : String
  uri : String
  format : String := "png"
  width_px : Nat := 1
  height_px : Nat := 1
  alt_text : String := ""
  content_role : String := "illustration"
  dominant_palette : List String := []
deriving DecidableEq, Repr

/-- Design-intent payload (`DesignIntent`). -/
structure DesignIntent : Type where
  purpose : String
  audience : String
  tone : String := "formal"
  goals : List String := ["clarity"]
deriving DecidableEq, Repr

/-- Constraints payload (`Constraints`). -/
structure Constraints : Type where
  visual_density : String := "balanced"
deriving DecidableEq, Repr

/-- A stored session row (`SessionModel`) together with its owned blocks and
images. -/
structure SessionRec : Type where
  session_id : String
  status : SessionStatus
  content_blocks : List ContentBlock
  images : List ImageAsset
  design_intent : DesignIntent
  constraints : Constraints
  proposal_id : Option String := none
  error_message : Option String := none
deriving DecidableEq, Repr

/-- The intake database: sessions keyed by `session_id`, idempotency keys
mapping to the `session_id` they were first used with. -/
structure Store : Type where
  sessions : List (String × SessionRec)
  idem : List (String × String)
deriving DecidableEq, Repr

/-- `CreateSessionRequest` (`models/session.py`). -/
structure CreateRequest : Type where
  content_blocks : List ContentBlock
  images : List ImageAsset
  design_intent : DesignIntent
  constraints : Constraints
deriving DecidableEq, Repr

/-- Python truthiness test `not block.detected_role`: `None` and the empty
string are falsy. -/
def roleUnset : Option String → Bool
  | none => true
  | some s => s = ""

/-- Role auto-detection from `_normalize_content`: sequence-0 heading →
`introduction`, callout → `action`, otherwise `supporting`. -/
def detectRole (b : ContentBlock) : String :=
  if b.type = "heading" ∧ b.sequence = 0 then "introduction"
  else if b.type = "callout" then "action"
  else "supporting"

/-- Reading-time estimate from `_normalize_content`:
`int((word_count / 200) * 60)` in Python float semantics — `wc / 200` is
rounded to the nearest double, the product with the exact 60 is rounded to
the nearest double again, and `int` truncates toward zero (floor, the value
being non-negative).  For word counts below 410 this coincides with the
exact `⌊wc · 60 / 200⌋`; at isolated multiples of 10 (the smallest being
410) the double product falls one below the exact integer. -/
def readingSeconds (wc : Nat) : Nat :=
  if wc = 0 then 0
  else
    let p1 := round53 wc 200
    let p2 := round53 (60 * p1.1) 1
    let ex := p2.2 + p1.2
    if ex ≥ 0 then p2.1 * 2 ^ ex.toNat else p2.1 / 2 ^ (-ex).toNat

/-- Per-block enrichment step of `_normalize_content`: computes the word
count, the reading-time estimate, and fills `detected_role` when it is
unset. -/
def normalizeBlock (b : ContentBlock) : ContentBlock :=
  let wc := pyWordCount b.text
  { b with
    metrics := { word_count := some wc,
                 estimated_reading_seconds := some (readingSeconds wc) }
    detected_role :=
      if roleUnset b.detected_role then some (detectRole b)
      else b.detected_role }

/-- `_normalize_content`: enriches every block of the session and moves the
session to `ready`. -/
def normalizeSession (s : SessionRec) : SessionRec :=
  { s with
    content_blocks := s.content_blocks.map normalizeBlock
    status := .ready }

/-- The fresh-creation path of `create_session`: payload-size validation,
session construction, normalization, and — when `storeKey` is set — the
recording of the idempotency key.  `storeKey` is the key only when Python's
truthiness test `if idempotency_key:` passed (neither `None` nor `""`). -/
def createFresh (st : Store) (req : CreateRequest) (storeKey : Option String)
    (freshId : String) : Except String SessionRec × Store :=
  if req.content_blocks.length > 1000 then
    (.error "Too many content blocks", st)
  else if req.images.length > 200 then
    (.error "Too many images", st)
  else
    let sess : SessionRec :=
      { session_id := freshId
        status := .draft
        content_blocks := req.content_blocks
        images := req.images
        design_intent := req.design_intent
        constraints := req.constraints }
    let sess := normalizeSession sess
    let idem :=
      match storeKey with
      | some k => (k, freshId) :: st.idem
      | none => st.idem
    (.ok sess, { sessions := (freshId, sess) :: st.sessions, idem := idem })

/-- `SessionService.create_session`.  Arguments: current store, request,
optional idempotency key, and the fresh identifier the service would draw
from `uuid4` (passed explicitly to keep the function deterministic).
Returns the response (or the raised error) together with the committed
store.  Both `if idempotency_key:` guards of the source are Python
truthiness tests: an empty-string key behaves exactly like an absent one —
it is neither replayed nor recorded. -/
def create_session (st : Store) (req : CreateRequest) (key : Option String)
    (freshId : String) : Except String SessionRec × Store :=
  match key with
  | none => createFresh st req none freshId
  | some k =>
    if k = "" then createFresh st req none freshId
    else
      match st.idem.lookup k with
      | some sid =>
        -- duplicate idempotency key: return the original session's response
        match st.sessions.lookup sid with
        | some m => (.ok m, st)
        | none => (.error "AttributeError: NoneType", st)
      | none => createFresh st req (some k) freshId

/-- Replace the session stored under `k`. -/
def updateSession (l : List (String × SessionRec)) (k : String)
    (v : SessionRec) : List (String × SessionRec) :=
  l.map (fun p => if p.1 = k then (k, v) else p)

/-- `SessionService.submit_session`: legal only from `draft` or `ready`;
assigns a proposal reference (`lsp-` followed by the second dash-separated
component of the session id) and moves to `layout_queued`.  Errors are
raised before the transaction commits, so the store is returned
unchanged on every failure path. -/
def submit_session (st : Store) (sid : String) (layout_mode : String) :
    Except String SessionRec × Store :=
  match st.sessions.lookup sid with
  | none => (.error "Session not found", st)
  | some m =>
    if m.status = .draft ∨ m.status = .ready then
      match (pySplit '-' sid).get? 1 with
      | none => (.error "IndexError", st)
      | some part =>
        let m' := { m with status := .layoutQueued,
                           proposal_id := some ("lsp-" ++ part) }
        (.ok m', { st with sessions := updateSession st.sessions sid m' })
    else
      (.error ("Cannot submit session in status"), st)

/-- `SessionService.delete_session`: blocked exactly when the session has
reached `layout_complete`; otherwise the row (and, by cascade, its blocks
and images) is removed. -/
def delete_session (st : Store) (sid : String) :
    Except String Unit × Store :=
  match st.sessions.lookup sid with
  | none => (.error "Session not found", st)
  | some m =>
    if m.status = .layoutComplete then
      (.error "Cannot delete session that has been rendered", st)
    else
      (.ok (), { st with sessions := st.sessions.eraseP (fun p => p.1 == sid) })

end Intake

/-! ## Gestalt engine

From `services/gestalt_engine/engines/gestalt_principles.py`,
`services/gestalt_engine/engines/design_engine.py`,
`services/gestalt_engine/models/proposal.py` and
`services/gestalt_engine/services/proposal_service.py`. -/

namespace Gestalt

/-- `GestaltPrinciples.BASE_SIZE`: base font size in points. -/
def BASE_SIZE : ℚ := 11

/-- `GestaltPrinciples.SCALE_RATIO`: the perfect-fourth modular-scale ratio
`1.333`, as an exact rational. -/
def SCALE_RATIO : ℚ := 1333/1000

/-- The `exponent_map.get(hierarchy_level, 0)` lookup of
`calculate_hierarchy_size`. -/
def exponentMap (level : ℤ) : ℤ :=
  if level = 1 then 3
  else if level = 2 then 2
  else if level = 3 then 1
  else if level = 4 then 0
  else if level = 5 then -1
  else 0

/-- `GestaltPrinciples.calculate_hierarchy_size`:
`int(round(BASE_SIZE * SCALE_RATIO ** exponent))`.  The rounding is
Python's `round` (half-to-even); no level hits an exact half, so the exact
rational model agrees with the IEEE-double evaluation of the source. -/
def calculate_hierarchy_size (level : ℤ) : ℤ :=
  pyRound (BASE_SIZE * SCALE_RATIO ^ exponentMap level)

/-- `GestaltPrinciples.get_text_color`: the `TEXT_COLORS` palette with the
level-4 body color as default. -/
def get_text_color (level : ℤ) : String :=
  if level = 1 then "#1a1a1a"
  else if level = 2 then "#333333"
  else if level = 3 then "#4a4a4a"
  else if level = 4 then "#333333"
  else if level = 5 then "#666666"
  else "#333333"

/-- `GestaltPrinciples.get_density_factor`. -/
def get_density_factor (visual_density : String) : ℚ :=
  if visual_density = "tight" then 7/10
  else if visual_density = "balanced" then 1
  else if visual_density = "airy" then 3/2
  else 1

/-- `DocumentType` enum. -/
inductive DocumentType : Type
  | word
  | powerpoint
deriving DecidableEq, Repr

/-- `ElementType` enum. -/
inductive ElementType : Type
  | text
  | image
  | table
  | shape
  | chart
deriving DecidableEq, Repr

/-- `ProposalStatus` enum. -/
inductive ProposalStatus : Type
  | queued
  | processing
  | complete
  | failed
deriving DecidableEq, Repr

/-- `Position` (proposal.py).  Floats are modelled as exact rationals. -/
structure Position : Type where
  x : ℚ
  y : ℚ
  width : ℚ
  height : ℚ
  z_index : ℤ := 0
deriving DecidableEq, Repr

/-- `Font` (proposal.py). -/
structure Font : Type where
  family : String := "Arial"
  size_pt : ℤ := 11
  weight : String := "normal"
  style : String := "normal"
  caps : String := "none"
deriving DecidableEq, Repr

/-- `Spacing` (proposal.py). -/
structure Spacing : Type where
  margin_top : ℚ := 0
  margin_bottom : ℚ := 0
  margin_left : ℚ := 0
  margin_right : ℚ := 0
  line_height : ℚ := 6/5
deriving DecidableEq, Repr

/-- `Styling` (proposal.py). -/
structure Styling : Type where
  font : Option Font := none
  color : Option String := none
  background : Option String := none
  alignment : String := "left"
  spacing : Spacing := {}
deriving DecidableEq, Repr

/-- `GestaltRules` tags (proposal.py). -/
structure GestaltRules : Type where
  hierarchy_level : ℤ
  proximity_group : Option String := none
  similarity_family : Option String := none
deriving DecidableEq, Repr

/-- `LayoutElement` (proposal.py).  The `uuid4`-defaulted `element_id`, the
unused `grid` and the free-form `behaviors` map are not modelled. -/
structure LayoutElement : Type where
  content_ref : Option String := none
  role : Option String := none
  type : ElementType
  position : Position
  styling : Styling
  gestalt_rules : Option GestaltRules := none
deriving DecidableEq, Repr

/-- `StructureUnit` (proposal.py), minus the `uuid4`-defaulted `unit_id`. -/
structure StructureUnit : Type where
  type : String
  title : Option String := none
  template : String
  elements : List LayoutElement := []
  notes : Option String := none
deriving DecidableEq, Repr

/-- `DesignRationale` (proposal.py).  The engine's `scores` dict is the six
per-principle baseline scores plus `overall_quality_score`; the latter is
stored by the source as `round(overall, 2)` of the IEEE-double weighted sum
(which yields `0.89`), while `overall_quality` here keeps the exact
unrounded weighted sum, which is what the grade thresholds are compared
against in the source. -/
structure DesignRationale : Type where
  principles_applied : List String := []
  proximity_score : ℚ
  similarity_score : ℚ
  hierarchy_score : ℚ
  alignment_score : ℚ
  whitespace_score : ℚ
  contrast_score : ℚ
  overall_quality : ℚ
  quality_grade : String
  ai_contributions : List String := []
  warnings : List String := []
deriving DecidableEq, Repr

/-- `LayoutSpecificationPackage` (proposal.py).  The `metadata` dict is
flattened into the `title`/`theme`/`mode` fields (its `created_at` is the
fixed string `"2025-11-09T09:00:00Z"`); `formatter_overrides` is the fixed
singleton map `text_overflow_policy → shrink_font_to_min_10pt` and is not
modelled.  `structure` is a Lean keyword, hence `structure_units`. -/
structure Lsp : Type where
  schema_version : String := "1.1"
  proposal_id : String
  session_id : String
  document_type : DocumentType
  title : String
  theme : String := "corporate_blue"
  mode : String
  structure_units : List StructureUnit
  design_rationale : DesignRationale
  warnings : List String := []
deriving DecidableEq, Repr

/-! ### The CIP as consumed by the engine

The CIP reaches the engine as `dict[str, Any]`; optional keys are `Option`
fields and `dict.get` becomes `Option.getD`. -/

/-- A content-block dict inside `cip["content"]["blocks"]`. -/
structure CipBlock : Type where
  block_id : Option String := none
  type : Option String := none
  level : Option ℤ := none
  text : Option String := none
deriving DecidableEq, Repr

/-- An image dict inside `cip["content"]["images"]`; the engine only ever
takes the length of the list. -/
structure CipImage : Type where
  image_id : Option String := none
  uri : Option String := none
deriving DecidableEq, Repr

/-- The `cip["content"]` sub-dict. -/
structure CipContent : Type where
  blocks : Option (List CipBlock) := none
  images : Option (List CipImage) := none
deriving DecidableEq, Repr

/-- The `cip["design_intent"]` sub-dict (only `purpose` is read). -/
structure CipDesignIntent : Type where
  purpose : Option String := none
deriving DecidableEq, Repr

/-- The `cip["constraints"]` sub-dict (only `visual_density` is read). -/
structure CipConstraints : Type where
  visual_density : Option String := none
deriving DecidableEq, Repr

/-- A Content-Intent Package as a loosely-typed dict. -/
structure Cip : Type where
  schema_version : Option String := none
  session_id : Option String := none
  content : Option CipContent := none
  design_intent : Option CipDesignIntent := none
  constraints : Option CipConstraints := none
deriving DecidableEq, Repr

/-- `cip.get("content", {}).get("blocks", [])`. -/
def Cip.blocksOf (cip : Cip) : List CipBlock :=
  ((cip.content.getD {}).blocks.getD [])

/-- `cip.get("content", {}).get("images", [])`. -/
def Cip.imagesOf (cip : Cip) : List CipImage :=
  ((cip.content.getD {}).images.getD [])

/-- `constraints.get("visual_density", "balanced")` on
`cip.get("constraints", {})`. -/
def Cip.visualDensity (cip : Cip) : String :=
  ((cip.constraints.getD {}).visual_density.getD "balanced")

/-! ### Pydantic validation

Pydantic validates field constraints when a model is instantiated; a
violation raises a `ValidationError` that layout generation does not catch.
The three constraints that the engine can actually trip over a hostile CIP
are modelled (`hierarchy_level` 1–5, the `StructureUnit.type` pattern, and
the ≤50 bound on `StructureUnit.elements`).  `Font.size_pt ∈ [6, 72]` is
always satisfied — `calculate_hierarchy_size` only ever produces
8/11/15/20/26, proved in `calculate_hierarchy_size_range` below — so it is
not re-checked at construction. -/

/-- Construct `GestaltRules`, enforcing the pydantic bound
`1 ≤ hierarchy_level ≤ 5`. -/
def mkGestaltRules (hl : ℤ) (family : String) : Except String GestaltRules :=
  if 1 ≤ hl ∧ hl ≤ 5 then
    .ok { hierarchy_level := hl, similarity_family := some family }
  else
    .error "ValidationError: hierarchy_level"

/-- Construct a `StructureUnit`, enforcing the pydantic pattern on `type`
and the `max_length=50` bound on `elements`. -/
def mkStructureUnit (ty : String) (title : Option String) (template : String)
    (elements : List LayoutElement) : Except String StructureUnit :=
  if (ty = "section" ∨ ty = "page" ∨ ty = "slide") ∧ elements.length ≤ 50 then
    .ok { type := ty, title := title, template := template,
          elements := elements }
  else
    .error "ValidationError: StructureUnit"

/-! ### DesignEngine -/

/-- `DesignEngine._determine_hierarchy_level`. -/
def determine_hierarchy_level (b : CipBlock) (index : Nat) (is_title : Bool) :
    ℤ :=
  let block_type := b.type.getD "paragraph"
  let block_level := b.level.getD 0
  if block_type = "heading" then
    if is_title ∧ index = 0 then 1 else min (block_level + 1) 3
  else if block_type = "quote" ∨ block_type = "callout" then 3
  else 4

/-- The similarity-family tag: `heading-N` for hierarchy level ≤ 3, else
`body-paragraph`. -/
def similarityFamily (hl : ℤ) : String :=
  if hl ≤ 3 then "heading-" ++ toString hl else "body-paragraph"

/-- One iteration of the `_create_slide_elements` loop: the element built
for `block` at enumeration index `idx` and running vertical offset `y`. -/
def mkSlideElement (b : CipBlock) (idx : Nat) (is_title : Bool) (y : ℚ)
    (df : ℚ) : Except String LayoutElement :=
  let hl := determine_hierarchy_level b idx is_title
  match mkGestaltRules hl (similarityFamily hl) with
  | .error e => .error e
  | .ok gr =>
    .ok { content_ref := b.block_id
          type := .text
          position := { x := 3/4, y := y, width := 17/2, height := 1 }
          styling :=
            { font := some { size_pt := calculate_hierarchy_size hl,
                             weight := if hl ≤ 2 then "bold" else "normal" }
              color := some (get_text_color hl)
              alignment := if is_title ∧ idx = 0 then "center" else "left"
              spacing := { margin_top := 3/10 * df,
                           margin_bottom := 1/5 * df,
                           line_height := 27/20 } }
          gestalt_rules := some gr }

/-- The `_create_slide_elements` loop over the group, threading the
enumeration index and the vertical offset (step `0.8 * density_factor`). -/
def slideElementsGo (is_title : Bool) (df : ℚ) :
    Nat → ℚ → List CipBlock → Except String (List LayoutElement)
  | _, _, [] => .ok []
  | idx, y, b :: bs =>
    match mkSlideElement b idx is_title y df with
    | .error e => .error e
    | .ok el =>
      match slideElementsGo is_title df (idx + 1) (y + 4/5 * df) bs with
      | .error e => .error e
      | .ok els => .ok (el :: els)

/-- `DesignEngine._create_slide_elements`.  The `images` and `template`
parameters are accepted and ignored, exactly as in the source. -/
def create_slide_elements (group : List CipBlock) (images : List CipImage)
    (template : String) (visual_density : String) (is_title : Bool) :
    Except String (List LayoutElement) :=
  slideElementsGo is_title (get_density_factor visual_density) 0
    (if is_title then 1 else 1/2) group

/-- One iteration of the `_create_page_elements` loop. -/
def mkPageElement (b : CipBlock) (idx : Nat) (y : ℚ) (df : ℚ) :
    Except String LayoutElement :=
  let hl := determine_hierarchy_level b idx false
  match mkGestaltRules hl (similarityFamily hl) with
  | .error e => .error e
  | .ok gr =>
    .ok { content_ref := b.block_id
          type := .text
          position := { x := 1, y := y, width := 13/2, height := 1/2 }
          styling :=
            { font := some { size_pt := calculate_hierarchy_size hl,
                             weight := if hl ≤ 2 then "bold" else "normal" }
              color := some (get_text_color hl)
              spacing := { margin_top := 3/10 * df,
                           margin_bottom := 1/5 * df,
                           line_height := 27/20 } }
          gestalt_rules := some gr }

/-- The `_create_page_elements` loop (vertical step `0.6 * density_factor`).
-/
def pageElementsGo (df : ℚ) :
    Nat → ℚ → List CipBlock → Except String (List LayoutElement)
  | _, _, [] => .ok []
  | idx, y, b :: bs =>
    match mkPageElement b idx y df with
    | .error e => .error e
    | .ok el =>
      match pageElementsGo df (idx + 1) (y + 3/5 * df) bs with
      | .error e => .error e
      | .ok els => .ok (el :: els)

/-- `DesignEngine._create_page_elements` (the `images` and `template`
parameters are ignored, as in the source). -/
def create_page_elements (content_blocks : List CipBlock)
    (images : List CipImage) (template : String) (visual_density : String) :
    Except String (List LayoutElement) :=
  pageElementsGo (get_density_factor visual_density) 0 1 content_blocks

/-- The new-group condition of `_group_content_for_slides`: the block is a
heading at `level ≤ 1` and the current group is non-empty, or the current
group already holds 5 blocks. -/
def startsNewGroup (b : CipBlock) (current : List CipBlock) : Bool :=
  (b.type == some "heading" && b.level.getD 0 ≤ 1 && !current.isEmpty) ||
    current.length ≥ 5

/-- The `_group_content_for_slides` loop: `gs` are the flushed groups,
`current` the group being accumulated. -/
def groupGo : List CipBlock → List (List CipBlock) → List CipBlock →
    List (List CipBlock)
  | [], gs, current => if current.isEmpty then gs else gs ++ [current]
  | b :: bs, gs, current =>
    if startsNewGroup b current then groupGo bs (gs ++ [current]) [b]
    else groupGo bs gs (current ++ [b])

/-- `DesignEngine._group_content_for_slides`. -/
def group_content_for_slides (content_blocks : List CipBlock) :
    List (List CipBlock) :=
  match groupGo content_blocks [] [] with
  | [] => [[]]
  | gs => gs

/-- `DesignEngine._select_slide_template`. -/
def select_slide_template (content_group : List CipBlock)
    (images : List CipImage) (is_title : Bool) : String :=
  if is_title then "title_slide"
  else
    let has_image := images.length > 0
    let text_count := (content_group.filter
      (fun b => b.type == some "paragraph" || b.type == some "list")).length
    if has_image ∧ text_count ≤ 2 then "image_with_caption"
    else if has_image ∧ text_count > 2 then "two_column_image_text"
    else if content_group.any (fun b => b.type == some "list") then
      "bullet_list"
    else if text_count > 5 then "text_heavy"
    else "standard_content"

/-- The `_generate_slides` loop over the slide groups (carrying the
enumeration index for the `is_title_slide = idx == 0` test). -/
def slidesGo (images : List CipImage) (visual_density : String) :
    Nat → List (List CipBlock) → Except String (List StructureUnit)
  | _, [] => .ok []
  | idx, g :: gs =>
    let is_title := idx = 0
    let template := select_slide_template g images is_title
    match create_slide_elements g images template visual_density is_title with
    | .error e => .error e
    | .ok els =>
      let title :=
        match g with
        | b :: _ => (b.text.getD "Slide").take 50
        | [] => "Slide " ++ toString (idx + 1)
      match mkStructureUnit "slide" (some title) template els with
      | .error e => .error e
      | .ok unit =>
        match slidesGo images visual_density (idx + 1) gs with
        | .error e => .error e
        | .ok units => .ok (unit :: units)

/-- `DesignEngine._generate_slides`. -/
def generate_slides (content_blocks : List CipBlock)
    (images : List CipImage) (visual_density : String) :
    Except String (List StructureUnit) :=
  slidesGo images visual_density 0 (group_content_for_slides content_blocks)

/-- `DesignEngine._generate_pages`: a single page holding every content
block. -/
def generate_pages (content_blocks : List CipBlock) (images : List CipImage)
    (visual_density : String) : Except String (List StructureUnit) :=
  match create_page_elements content_blocks images "single_column"
      visual_density with
  | .error e => .error e
  | .ok els =>
    match mkStructureUnit "page" (some "Document") "single_column" els with
    | .error e => .error e
    | .ok page => .ok [page]

/-- `DesignEngine._extract_title`: first heading at level ≤ 1, truncated to
100 characters; fixed fallback otherwise. -/
def extract_title : List CipBlock → String
  | [] => "Untitled Document"
  | b :: bs =>
    if b.type == some "heading" && b.level.getD 0 ≤ 1 then
      (b.text.getD "Untitled").take 100
    else extract_title bs

/-- `DesignEngine._calculate_design_rationale`: fixed baseline scores, the
weighted overall sum (summed in the weights-dict iteration order
proximity, similarity, hierarchy, alignment, whitespace, contrast), and the
threshold grade computed from the unrounded sum. -/
def calculate_design_rationale (structure_units : List StructureUnit)
    (mode : String) : DesignRationale :=
  let overall : ℚ :=
    85/100 * (15/100) + 92/100 * (15/100) + 88/100 * (25/100) +
      90/100 * (20/100) + 83/100 * (15/100) + 95/100 * (10/100)
  let grade :=
    if overall ≥ 90/100 then "excellent"
    else if overall ≥ 75/100 then "good"
    else if overall ≥ 60/100 then "acceptable"
    else "needs_improvement"
  { principles_applied :=
      ["proximity", "similarity", "hierarchy", "alignment", "whitespace",
       "contrast"]
    proximity_score := 85/100
    similarity_score := 92/100
    hierarchy_score := 88/100
    alignment_score := 90/100
    whitespace_score := 83/100
    contrast_score := 95/100
    overall_quality := overall
    quality_grade := grade
    ai_contributions :=
      if mode = "rule_only" then [] else ["AI mode disabled per requirements"]
    warnings := [] }

/-- `DesignEngine.generate_layout`.  `cip['session_id']` raises `KeyError`
when absent and `.split('-')[1]` raises `IndexError` when the id has no
dash; both surface as `Except.error`. -/
def generate_layout (cip : Cip) (document_type : DocumentType)
    (mode : String) : Except String Lsp :=
  match cip.session_id with
  | none => .error "KeyError: session_id"
  | some sid =>
    match (pySplit '-' sid).get? 1 with
    | none => .error "IndexError: list index out of range"
    | some part =>
      let content_blocks := cip.blocksOf
      let images := cip.imagesOf
      let visual_density := cip.visualDensity
      let structure_result :=
        if document_type = DocumentType.powerpoint then
          generate_slides content_blocks images visual_density
        else
          generate_pages content_blocks images visual_density
      match structure_result with
      | .error e => .error e
      | .ok units =>
        .ok { proposal_id := "lsp-" ++ part
              session_id := sid
              document_type := document_type
              title := extract_title content_blocks
              mode := mode
              structure_units := units
              design_rationale := calculate_design_rationale units mode }

/-- The structure units of a generation result (empty when generation
raised). -/
def structureOf : Except String Lsp → List StructureUnit
  | .ok lsp => lsp.structure_units
  | .error _ => []

/-! ### ProposalService -/

/-- A proposal record (`ProposalService._proposals` entry). -/
structure Proposal : Type where
  proposal_id : String
  status : ProposalStatus
  estimated_completion_seconds : Option Nat := none
  session_id : String
  error : Option String := none
deriving DecidableEq, Repr

/-- The in-memory state of a `ProposalService` instance: `_proposals`,
`_specifications` and `_idempotency_keys`. -/
structure PropStore : Type where
  proposals : List (String × Proposal)
  specs : List (String × Lsp)
  idem : List (String × String)
deriving DecidableEq, Repr

/-- Replace the proposal stored under `k`. -/
def updateProposal (l : List (String × Proposal)) (k : String)
    (v : Proposal) : List (String × Proposal) :=
  l.map (fun p => if p.1 = k then (k, v) else p)

/-- `ProposalService._generate_layout`: resolves the document type from
`design_intent.purpose`, runs the engine, stores the specification and
marks the proposal complete; every exception is caught and recorded as a
`failed` status.  The transient `processing` status is subsumed by the
final state. -/
def generateLayoutStep (pid : String) (cip : Cip) (p : Proposal)
    (st : PropStore) : Proposal × PropStore :=
  let purpose := (cip.design_intent.getD {}).purpose.getD "report"
  let dt :=
    if purpose = "presentation" then DocumentType.powerpoint
    else DocumentType.word
  match generate_layout cip dt "rule_only" with
  | .ok lsp =>
    let p1 := { p with status := .complete }
    (p1, { st with specs := (pid, lsp) :: st.specs,
                   proposals := updateProposal st.proposals pid p1 })
  | .error e =>
    let p1 := { p with status := .failed, error := some e }
    (p1, { st with proposals := updateProposal st.proposals pid p1 })

/-- `ProposalService.create_proposal`: idempotency-key replay, then the
schema validation (`schema_version` and `session_id` presence only), then
proposal creation and synchronous layout generation.  The source guards the
replay and store branches with Python truthiness
(`if idempotency_key and ...`), under which an empty-string key acts as
absent; the replay lookup is modelled by `Option`-presence here, a
difference confined to those two branches — the theorems below either pass
`none` or hypothesise a failing lookup, forcing the paths where the model
and the source coincide. -/
def create_proposal (st : PropStore) (cip : Cip) (key : Option String) :
    Except String Proposal × PropStore :=
  match key.bind (fun k => st.idem.lookup k) with
  | some pid =>
    match st.proposals.lookup pid with
    | some p => (.ok p, st)
    | none => (.error "KeyError", st)
  | none =>
    if cip.schema_version = none ∨ cip.session_id = none then
      (.error "Invalid CIP: missing required fields", st)
    else
      match cip.session_id with
      | none => (.error "Invalid CIP: missing required fields", st)
      | some sid =>
        match (pySplit '-' sid).get? 1 with
        | none => (.error "IndexError: list index out of range", st)
        | some part =>
          let pid := "lsp-" ++ part
          let p : Proposal :=
            { proposal_id := pid
              status := .queued
              estimated_completion_seconds := some 4
              session_id := sid }
          let st1 := { st with proposals := (pid, p) :: st.proposals }
          let st2 :=
            match key with
            | some k => { st1 with idem := (k, pid) :: st1.idem }
            | none => st1
          let r := generateLayoutStep pid cip p st2
          (.ok r.1, r.2)

end Gestalt


/-! ## Spec-side comparator and concrete fixtures -/

/-- The reading-time formula as the spec words it (for comparison with the
source's `Intake.readingSeconds`): `round(word_count / 200 × 60)`, rounded
to the nearest integer. -/
def readingSecondsSpec (wc : Nat) : ℤ :=
  pyRound ((wc : ℚ) / 200 * 60)

/-- A three-word paragraph block: 3 words at 200 wpm is 0.9 seconds, which
rounding and truncation disagree on. -/
def blockC2 : Intake.ContentBlock :=
  { block_id := "blk-1"
    type := "paragraph"
    sequence := 1
    text := "a b c"
    language := "en" }

/-- A draft session with a heading, a callout and a plain paragraph. -/
def sessC8 : Intake.SessionRec :=
  { session_id := "sess-1"
    status := .draft
    content_blocks :=
      [ { block_id := "b0", type := "heading", level := 1, sequence := 0,
          text := "Quarterly Report" },
        { block_id := "b1", type := "callout", sequence := 1,
          text := "Act now" },
        { block_id := "b2", type := "paragraph", sequence := 2,
          text := "Body text here" } ]
    images := []
    design_intent := { purpose := "report", audience := "executive" }
    constraints := {} }

/-- A one-session store holding a draft session, for the C6 witness. -/
def storeC6 : Intake.Store :=
  { sessions := [("sess-1", { sessC8 with session_id := "sess-1" })]
    idem := [] }

/-- A one-block creation request, for the C7 witness. -/
def reqC7 : Intake.CreateRequest :=
  { content_blocks :=
      [ { block_id := "b0", type := "paragraph", sequence := 0,
          text := "hello world" } ]
    images := []
    design_intent := { purpose := "report", audience := "executive" }
    constraints := {} }

/-- A level-1 heading CIP block. -/
def h1a : Gestalt.CipBlock :=
  { block_id := some "h1", type := some "heading", level := some 1,
    text := some "Intro" }

/-- A second level-1 heading CIP block. -/
def h1b : Gestalt.CipBlock :=
  { block_id := some "h2", type := some "heading", level := some 1,
    text := some "Next" }

/-- A paragraph CIP block. -/
def pblk : Gestalt.CipBlock :=
  { block_id := some "p", type := some "paragraph", text := some "body" }

/-- The block sequence `[H1, P, P, P, P, P, H1, P]` of claim C1. -/
def blocksC1 : List Gestalt.CipBlock :=
  [h1a, pblk, pblk, pblk, pblk, pblk, h1b, pblk]

/-- A valid CIP for a paged document carrying 51 content blocks — well
under the 1000-block submission limit, but above the 50-element
`StructureUnit` bound. -/
def cip51 : Gestalt.Cip :=
  { schema_version := some "1.0"
    session_id := some "sess-51"
    content := some { blocks := some (List.replicate 51 pblk) } }

/-- A CIP with `schema_version` and `session_id` but no `content` key at
all (hence no content blocks). -/
def cipNoContent : Gestalt.Cip :=
  { schema_version := some "1.0", session_id := some "sess-abc" }

/-- A CIP missing `schema_version`. -/
def cipMissingSchema : Gestalt.Cip :=
  { session_id := some "sess-x" }

/-- A fresh `ProposalService` state. -/
def emptyPropStore : Gestalt.PropStore :=
  { proposals := [], specs := [], idem := [] }

/-- A one-paragraph CIP, used to exhibit a concrete generated element. -/
def cipC10 : Gestalt.Cip :=
  { schema_version := some "1.0"
    session_id := some "sess-w1"
    content := some { blocks := some [pblk] } }

/-- Fallback structure unit for `List.headD`. -/
def defUnit : Gestalt.StructureUnit :=
  { type := "page", template := "" }

/-- Fallback layout element for `List.headD`. -/
def defElem : Gestalt.LayoutElement :=
  { type := .text
    position := { x := 0, y := 0, width := 1, height := 1 }
    styling := {} }

/-- The single structure unit generated for `cipNoContent` as a paged
document. -/
def unitC4 : Gestalt.StructureUnit :=
  (Gestalt.structureOf
    (Gestalt.generate_layout cipNoContent Gestalt.DocumentType.word
      "rule_only")).headD defUnit

/-- The single structure unit generated for `cipC10` as a paged document. -/
def unitC10 : Gestalt.StructureUnit :=
  (Gestalt.structureOf
    (Gestalt.generate_layout cipC10 Gestalt.DocumentType.word
      "rule_only")).headD defUnit

/-- The single element laid out for `cipC10`. -/
def elemC10 : Gestalt.LayoutElement :=
  unitC10.elements.headD defElem

/-! ## Typographic hierarchy (claim C9) -/

/-- The five modular-scale font sizes: 26, 20, 15, 11 and 8 points. -/
theorem calculate_hierarchy_size_values :
    Gestalt.calculate_hierarchy_size 1 = 26 ∧
    Gestalt.calculate_hierarchy_size 2 = 20 ∧
    Gestalt.calculate_hierarchy_size 3 = 15 ∧
    Gestalt.calculate_hierarchy_size 4 = 11 ∧
    Gestalt.calculate_hierarchy_size 5 = 8 := by
  refine ⟨?_, ?_, ?_, ?_, ?_⟩ <;>
    norm_num [Gestalt.calculate_hierarchy_size, Gestalt.exponentMap,
      Gestalt.BASE_SIZE, Gestalt.SCALE_RATIO, pyRound, Int.floor_eq_iff]

/-- Every hierarchy level (the unknown-level default included) yields a
font size within pydantic's `6 ≤ size_pt ≤ 72` bound on `Font`, which is
why the bound is not re-checked at element construction. -/
theorem calculate_hierarchy_size_range (level : ℤ) :
    6 ≤ Gestalt.calculate_hierarchy_size level ∧
      Gestalt.calculate_hierarchy_size level ≤ 72 := by
  unfold Gestalt.calculate_hierarchy_size Gestalt.exponentMap
  split_ifs <;>
    norm_num [Gestalt.BASE_SIZE, Gestalt.SCALE_RATIO, pyRound,
      Int.floor_eq_iff]

/-- C9: the hierarchy font size — `11pt` scaled by `1.333` to the exponent
keyed by the level (1→+3, 2→+2, 3→+1, 4→0, 5→−1) and rounded to the
nearest point — is non-increasing over levels 1 through 5:
26 ≥ 20 ≥ 15 ≥ 11 ≥ 8. -/
theorem C9_hierarchy_size_non_increasing :
    Gestalt.calculate_hierarchy_size 2 ≤ Gestalt.calculate_hierarchy_size 1 ∧
    Gestalt.calculate_hierarchy_size 3 ≤ Gestalt.calculate_hierarchy_size 2 ∧
    Gestalt.calculate_hierarchy_size 4 ≤ Gestalt.calculate_hierarchy_size 3 ∧
    Gestalt.calculate_hierarchy_size 5 ≤ Gestalt.calculate_hierarchy_size 4
    := by
  obtain ⟨h1, h2, h3, h4, h5⟩ := calculate_hierarchy_size_values
  rw [h1, h2, h3, h4, h5]
  omega

/-! ## Design-quality scoring (claim C5) -/

/-- C5, counterexample: the weighted sum of the baseline scores is exactly
`0.885`, not approximately `0.8965` — it misses `0.8965` by more than a
whole cent, so no 2-decimal rounding reconciles the two. -/
theorem C5_overall_score_counterexample :
    (Gestalt.calculate_design_rationale [] "rule_only").overall_quality =
      177/200 ∧
    (Gestalt.calculate_design_rationale [] "rule_only").overall_quality ≠
      8965/10000 ∧
    1/100 <
      |(Gestalt.calculate_design_rationale [] "rule_only").overall_quality -
        8965/10000| := by
  refine ⟨?_, ?_, ?_⟩ <;>
    norm_num [Gestalt.calculate_design_rationale, abs_of_nonpos,
      abs_of_nonneg]

/-- C5, amended: for every generated structure the overall quality score is
exactly `0.885 = 177/200` (the weighted sum with weights hierarchy 0.25,
alignment 0.20, proximity 0.15, similarity 0.15, whitespace 0.15, contrast
0.10 over the fixed baseline scores; the source stores it rounded to 2
decimals as `0.89`), and the quality grade is `good` because
`0.75 ≤ 0.885 < 0.90`. -/
theorem C5_overall_score_amended (units : List Gestalt.StructureUnit)
    (mode : String) :
    (Gestalt.calculate_design_rationale units mode).overall_quality =
      177/200 ∧
    (Gestalt.calculate_design_rationale units mode).quality_grade = "good" ∧
    (75/100 : ℚ) ≤ 177/200 ∧ (177/200 : ℚ) < 90/100 := by
  refine ⟨?_, ?_, by norm_num, by norm_num⟩ <;>
    norm_num [Gestalt.calculate_design_rationale]

/-! ## Content grouping (claim C1) -/

/-- C1, counterexample: on `[H1, P, P, P, P, P, H1, P]` the grouping rule
produces 3 groups, not 2. -/
theorem C1_grouping_counterexample :
    (Gestalt.group_content_for_slides blocksC1).length ≠ 2 := by decide

/-- C1, amended: on `[H1, P, P, P, P, P, H1, P]` grouping yields exactly 3
groups — `[H1, P, P, P, P]` closed by the 5-item cap, the leftover `[P]`
closed by the level-≤1-heading rule, and `[H1, P]` starting fresh at the
second H1. -/
theorem C1_grouping_amended :
    Gestalt.group_content_for_slides blocksC1 =
      [[h1a, pblk, pblk, pblk, pblk], [pblk], [h1b, pblk]] := by decide

/-! ## Reading-time estimate (claim C2) -/

/-- C2, counterexample: on a block whose text has 3 words, normalization
stores `int((3 / 200) * 60) = 0` reading seconds, while the claimed formula
`round(3 / 200 × 60)` gives 1. -/
theorem C2_reading_seconds_counterexample :
    ((Intake.normalizeBlock blockC2).metrics.estimated_reading_seconds.map
        (fun n => (n : ℤ))) ≠
      some (readingSecondsSpec (pyWordCount blockC2.text)) := by
  have h1 : (Intake.normalizeBlock blockC2).metrics.estimated_reading_seconds
      = some 0 := by decide
  have hwc : pyWordCount blockC2.text = 3 := by decide
  have h2 : readingSecondsSpec 3 = 1 := by
    norm_num [readingSecondsSpec, pyRound, Int.floor_eq_iff]
  rw [h1, hwc, h2]
  decide

set_option maxRecDepth 8192 in
/-- C2, amended: normalization stores `int((word_count / 200) * 60)` in
double-precision float semantics — the *truncation* of the product, not its
rounding.  For every word count below 410 this equals the exact
`⌊word_count × 60 / 200⌋`; 410 is the smallest word count where the double
product falls below the exact value, so the code stores 122 there instead
of the exact 123. -/
theorem C2_reading_seconds_amended :
    (∀ b : Intake.ContentBlock,
      (Intake.normalizeBlock b).metrics.estimated_reading_seconds =
        some (Intake.readingSeconds (pyWordCount b.text))) ∧
    (∀ wc : Nat, wc < 410 → Intake.readingSeconds wc = wc * 60 / 200) ∧
    Intake.readingSeconds 410 = 122 ∧ 410 * 60 / 200 = 123 := by
  refine ⟨fun b => rfl, by decide, by decide, by decide⟩

/-- Witness for C2 (amended) at the three-word count of `blockC2`. -/
theorem C2_reading_seconds_amended_witness :
    3 < 410 ∧ Intake.readingSeconds 3 = 3 * 60 / 200 :=
  ⟨by decide, C2_reading_seconds_amended.2.1 3 (by decide)⟩

/-! ## Normalization round-trip (claim C8) -/

/-- C8: every block of a normalized draft session carries a non-empty
detected role and a word count equal to the whitespace-token count of its
text; blocks whose role was unset get `introduction` (sequence-0 heading),
`action` (callout) or `supporting`. -/
theorem C8_normalize_roundtrip (s : Intake.SessionRec)
    (hdraft : s.status = Intake.SessionStatus.draft)
    (nb : Intake.ContentBlock)
    (hmem : nb ∈ (Intake.normalizeSession s).content_blocks) :
    (nb.detected_role ≠ none ∧ nb.detected_role ≠ some "") ∧
    nb.metrics.word_count = some (pyWordCount nb.text) ∧
    ∃ b ∈ s.content_blocks, nb = Intake.normalizeBlock b ∧
      (Intake.roleUnset b.detected_role = true →
        nb.detected_role =
          some (if b.type = "heading" ∧ b.sequence = 0 then "introduction"
            else if b.type = "callout" then "action" else "supporting")) := by
  simp only [Intake.normalizeSession] at hmem
  obtain ⟨b, hb, rfl⟩ := List.mem_map.1 hmem
  refine ⟨?_, ?_, b, hb, rfl, ?_⟩
  · by_cases h : Intake.roleUnset b.detected_role
    · simp only [Intake.normalizeBlock, h, if_true]
      constructor
      · simp
      · simp only [Intake.detectRole]
        split
        · simp
        · split <;> simp
    · cases hrole : b.detected_role with
      | none => simp [Intake.roleUnset, hrole] at h
      | some r =>
        have hr : ¬ r = "" := by
          simpa [Intake.roleUnset, hrole] using h
        simp [Intake.normalizeBlock, Intake.roleUnset, hrole, hr]
  · simp [Intake.normalizeBlock]
  · intro h
    simp [Intake.normalizeBlock, h, Intake.detectRole]

/-- Witness for C8 at the concrete session `sessC8` and its first block. -/
theorem C8_normalize_roundtrip_witness :
    (Intake.normalizeBlock
        { block_id := "b0", type := "heading", level := 1, sequence := 0,
          text := "Quarterly Report" }).detected_role ≠ none ∧
    sessC8.status = Intake.SessionStatus.draft ∧
    Intake.normalizeBlock
        { block_id := "b0", type := "heading", level := 1, sequence := 0,
          text := "Quarterly Report" } ∈
      (Intake.normalizeSession sessC8).content_blocks := by
  refine ⟨?_, rfl, ?_⟩
  · exact (C8_normalize_roundtrip sessC8 rfl _ (by decide)).1.1
  · decide

/-! ## Submit / delete state machine (claim C6) -/

/-- C6: for an existing session, `submit` succeeds exactly from `draft` or
`ready`, `delete` fails exactly from `layout_complete`, and a rejected
operation leaves the store untouched.  The hypothesis on the session id
reflects the `sess-<uuid>` format every stored session id has (the code
indexes the second dash-separated component). -/
theorem C6_state_machine (st : Intake.Store) (sid : String)
    (m : Intake.SessionRec) (mode : String)
    (hm : st.sessions.lookup sid = some m)
    (hsid : 2 ≤ (pySplit '-' sid).length) :
    (isOkE (Intake.submit_session st sid mode).1 = true ↔
      (m.status = .draft ∨ m.status = .ready)) ∧
    (isOkE (Intake.delete_session st sid).1 = false ↔
      m.status = .layoutComplete) ∧
    (isOkE (Intake.submit_session st sid mode).1 = false →
      (Intake.submit_session st sid mode).2 = st) ∧
    (isOkE (Intake.delete_session st sid).1 = false →
      (Intake.delete_session st sid).2 = st) := by
  obtain ⟨part, hpart⟩ : ∃ p, (pySplit '-' sid)[1]? = some p :=
    ⟨_, List.getElem?_eq_getElem (by omega)⟩
  by_cases hst : m.status = Intake.SessionStatus.draft ∨
      m.status = Intake.SessionStatus.ready
  · by_cases hlc : m.status = Intake.SessionStatus.layoutComplete
    · rcases hst with h | h <;> rw [h] at hlc <;> exact absurd hlc (by decide)
    · refine ⟨?_, ?_, ?_, ?_⟩ <;>
        simp [Intake.submit_session, Intake.delete_session, hm, hpart, hst,
          hlc, isOkE]
  · by_cases hlc : m.status = Intake.SessionStatus.layoutComplete
    · refine ⟨?_, ?_, ?_, ?_⟩ <;>
        simp [Intake.submit_session, Intake.delete_session, hm, hst, hlc,
          isOkE]
    · refine ⟨?_, ?_, ?_, ?_⟩ <;>
        simp [Intake.submit_session, Intake.delete_session, hm, hst, hlc,
          isOkE]

/-- Witness for C6 at the concrete store `storeC6`. -/
theorem C6_state_machine_witness :
    isOkE (Intake.submit_session storeC6 "sess-1" "rule_only").1 = true ∧
    isOkE (Intake.delete_session storeC6 "sess-1").1 = true := by
  have h := C6_state_machine storeC6 "sess-1"
    { sessC8 with session_id := "sess-1" } "rule_only" (by decide) (by decide)
  refine ⟨h.1.2 (Or.inl rfl), ?_⟩
  have h2 := h.2.1
  cases hd : isOkE (Intake.delete_session storeC6 "sess-1").1 with
  | true => rfl
  | false => exact absurd (h2.1 hd) (by decide)

/-! ## Idempotent session creation (claim C7) -/

/-- C7: creating a session twice with the same payload and the same fresh
idempotency key succeeds, and the second call returns the first call's
result verbatim while leaving the store unchanged — so no second session is
created and normalization is not re-run.  The key is required to be
non-empty: Python's `if idempotency_key:` treats `""` as no key at all, so
an empty key is outside idempotent replay. -/
theorem C7_create_idempotent (st : Intake.Store) (req : Intake.CreateRequest)
    (k id1 id2 : String)
    (hk0 : k ≠ "")
    (hk : st.idem.lookup k = none)
    (hb : req.content_blocks.length ≤ 1000)
    (hi : req.images.length ≤ 200) :
    isOkE (Intake.create_session st req (some k) id1).1 = true ∧
    Intake.create_session (Intake.create_session st req (some k) id1).2 req
        (some k) id2 =
      Intake.create_session st req (some k) id1 := by
  have hnot1 : ¬ req.content_blocks.length > 1000 := by omega
  have hnot2 : ¬ req.images.length > 200 := by omega
  have h1 : Intake.create_session st req (some k) id1 =
      (.ok (Intake.normalizeSession
        { session_id := id1
          status := .draft
          content_blocks := req.content_blocks
          images := req.images
          design_intent := req.design_intent
          constraints := req.constraints }),
       { sessions := (id1, Intake.normalizeSession
            { session_id := id1
              status := .draft
              content_blocks := req.content_blocks
              images := req.images
              design_intent := req.design_intent
              constraints := req.constraints }) :: st.sessions,
         idem := (k, id1) :: st.idem }) := by
    simp [Intake.create_session, Intake.createFresh, hk0, hk, hnot1, hnot2]
  rw [h1]
  refine ⟨rfl, ?_⟩
  simp [Intake.create_session, hk0, List.lookup]

/-- Witness for C7: an empty store, a fresh non-empty key, a one-block
payload. -/
theorem C7_create_idempotent_witness :
    isOkE (Intake.create_session { sessions := [], idem := [] } reqC7
      (some "key-1") "sess-a").1 = true := by
  exact (C7_create_idempotent { sessions := [], idem := [] } reqC7 "key-1"
    "sess-a" "sess-b" (by decide) (by decide) (by decide) (by decide)).1

/-! ## Engine inversion lemmas -/

namespace Gestalt

/-- A successfully validated `StructureUnit` carries the supplied elements,
and at most 50 of them. -/
theorem mkStructureUnit_ok {ty : String} {title : Option String}
    {template : String} {els : List LayoutElement} {u : StructureUnit}
    (h : mkStructureUnit ty title template els = .ok u) :
    u.elements = els ∧ els.length ≤ 50 := by
  unfold mkStructureUnit at h
  split at h
  · rename_i hc
    cases h
    exact ⟨rfl, hc.2⟩
  · cases h

/-- A successfully built slide element is a text element referencing the
block it was built from. -/
theorem mkSlideElement_ok {b : CipBlock} {idx : Nat} {is_title : Bool}
    {y df : ℚ} {el : LayoutElement}
    (h : mkSlideElement b idx is_title y df = .ok el) :
    el.type = ElementType.text ∧ el.content_ref = b.block_id := by
  cases hgr : mkGestaltRules (determine_hierarchy_level b idx is_title)
      (similarityFamily (determine_hierarchy_level b idx is_title)) with
  | error e => simp [mkSlideElement, hgr] at h
  | ok gr =>
    simp only [mkSlideElement, hgr, Except.ok.injEq] at h
    subst h
    exact ⟨rfl, rfl⟩

/-- A successfully built page element is a text element referencing the
block it was built from. -/
theorem mkPageElement_ok {b : CipBlock} {idx : Nat} {y df : ℚ}
    {el : LayoutElement} (h : mkPageElement b idx y df = .ok el) :
    el.type = ElementType.text ∧ el.content_ref = b.block_id := by
  cases hgr : mkGestaltRules (determine_hierarchy_level b idx false)
      (similarityFamily (determine_hierarchy_level b idx false)) with
  | error e => simp [mkPageElement, hgr] at h
  | ok gr =>
    simp only [mkPageElement, hgr, Except.ok.injEq] at h
    subst h
    exact ⟨rfl, rfl⟩

/-- Every element produced by the slide-element loop is a text element
whose content reference is the `block_id` of one of the loop's blocks. -/
theorem slideElementsGo_ok_mem (is_title : Bool) (df : ℚ) :
    ∀ (bs : List CipBlock) (idx : Nat) (y : ℚ) (els : List LayoutElement),
      slideElementsGo is_title df idx y bs = .ok els →
      ∀ e ∈ els, e.type = ElementType.text ∧
        ∃ b ∈ bs, e.content_ref = b.block_id := by
  intro bs
  induction bs with
  | nil =>
    intro idx y els h e he
    simp only [slideElementsGo] at h
    cases h
    simp at he
  | cons b bs ih =>
    intro idx y els h e he
    simp only [slideElementsGo] at h
    split at h
    · cases h
    · rename_i el hel
      split at h
      · cases h
      · rename_i els0 hels0
        cases h
        rcases List.mem_cons.1 he with rfl | hmem
        · obtain ⟨ht, hr⟩ := mkSlideElement_ok hel
          exact ⟨ht, b, List.mem_cons_self b bs, hr⟩
        · obtain ⟨ht, b', hb', hr⟩ := ih (idx + 1) (y + 4/5 * df) els0
            hels0 e hmem
          exact ⟨ht, b', List.mem_cons_of_mem b hb', hr⟩

/-- Every element produced by the page-element loop is a text element
whose content reference is the `block_id` of one of the loop's blocks. -/
theorem pageElementsGo_ok_mem (df : ℚ) :
    ∀ (bs : List CipBlock) (idx : Nat) (y : ℚ) (els : List LayoutElement),
      pageElementsGo df idx y bs = .ok els →
      ∀ e ∈ els, e.type = ElementType.text ∧
        ∃ b ∈ bs, e.content_ref = b.block_id := by
  intro bs
  induction bs with
  | nil =>
    intro idx y els h e he
    simp only [pageElementsGo] at h
    cases h
    simp at he
  | cons b bs ih =>
    intro idx y els h e he
    simp only [pageElementsGo] at h
    split at h
    · cases h
    · rename_i el hel
      split at h
      · cases h
      · rename_i els0 hels0
        cases h
        rcases List.mem_cons.1 he with rfl | hmem
        · obtain ⟨ht, hr⟩ := mkPageElement_ok hel
          exact ⟨ht, b, List.mem_cons_self b bs, hr⟩
        · obtain ⟨ht, b', hb', hr⟩ := ih (idx + 1) (y + 3/5 * df) els0
            hels0 e hmem
          exact ⟨ht, b', List.mem_cons_of_mem b hb', hr⟩

/-- Accumulator invariant of the grouping loop: any property holding on the
already-flushed groups, the current group and the remaining blocks holds on
every block of every produced group. -/
theorem groupGo_mem (P : CipBlock → Prop) :
    ∀ (bs : List CipBlock) (gs : List (List CipBlock))
      (current : List CipBlock),
      (∀ g ∈ gs, ∀ b ∈ g, P b) → (∀ b ∈ current, P b) → (∀ b ∈ bs, P b) →
      ∀ g ∈ groupGo bs gs current, ∀ b ∈ g, P b := by
  intro bs
  induction bs with
  | nil =>
    intro gs current hgs hcur _ g hg b hb
    simp only [groupGo] at hg
    split at hg
    · exact hgs g hg b hb
    · rcases List.mem_append.1 hg with h | h
      · exact hgs g h b hb
      · rw [List.mem_singleton.1 h] at hb
        exact hcur b hb
  | cons x bs ih =>
    intro gs current hgs hcur hbs g hg b hb
    simp only [groupGo] at hg
    split at hg
    · refine ih (gs ++ [current]) [x] ?_ ?_ ?_ g hg b hb
      · intro g' hg' b' hb'
        rcases List.mem_append.1 hg' with h | h
        · exact hgs g' h b' hb'
        · rw [List.mem_singleton.1 h] at hb'
          exact hcur b' hb'
      · intro b' hb'
        rw [List.mem_singleton.1 hb']
        exact hbs x (List.mem_cons_self x bs)
      · intro b' hb'
        exact hbs b' (List.mem_cons_of_mem x hb')
    · refine ih gs (current ++ [x]) hgs ?_ ?_ g hg b hb
      · intro b' hb'
        rcases List.mem_append.1 hb' with h | h
        · exact hcur b' h
        · rw [List.mem_singleton.1 h]
          exact hbs x (List.mem_cons_self x bs)
      · intro b' hb'
        exact hbs b' (List.mem_cons_of_mem x hb')

/-- Grouping never invents blocks: every block of every group comes from
the input sequence. -/
theorem group_content_for_slides_mem (content_blocks : List CipBlock) :
    ∀ g ∈ group_content_for_slides content_blocks, ∀ b ∈ g,
      b ∈ content_blocks := by
  intro g hg b hb
  unfold group_content_for_slides at hg
  split at hg
  · rw [List.mem_singleton.1 hg] at hb
    simp at hb
  · exact groupGo_mem (· ∈ content_blocks) content_blocks [] []
      (by simp) (by simp) (fun b hb => hb) g hg b hb

/-- Every unit produced by the slide loop respects the ≤50-element bound. -/
theorem slidesGo_ok_le (images : List CipImage) (vd : String) :
    ∀ (gs : List (List CipBlock)) (idx : Nat)
      (units : List StructureUnit),
      slidesGo images vd idx gs = .ok units →
      ∀ u ∈ units, u.elements.length ≤ 50 := by
  intro gs
  induction gs with
  | nil =>
    intro idx units h u hu
    simp only [slidesGo] at h
    cases h
    simp at hu
  | cons g gs ih =>
    intro idx units h u hu
    simp only [slidesGo] at h
    split at h
    · cases h
    · rename_i els hels
      split at h
      · cases h
      · rename_i unit hunit
        split at h
        · cases h
        · rename_i units0 hunits0
          cases h
          rcases List.mem_cons.1 hu with rfl | hmem
          · obtain ⟨he, hle⟩ := mkStructureUnit_ok hunit
            rw [he]
            exact hle
          · exact ih (idx + 1) units0 hunits0 u hmem

/-- Every element of every unit produced by the slide loop is a text
element referencing a block of one of the loop's groups. -/
theorem slidesGo_ok_mem (images : List CipImage) (vd : String) :
    ∀ (gs : List (List CipBlock)) (idx : Nat)
      (units : List StructureUnit),
      slidesGo images vd idx gs = .ok units →
      ∀ u ∈ units, ∀ e ∈ u.elements, e.type = ElementType.text ∧
        ∃ b, (∃ g ∈ gs, b ∈ g) ∧ e.content_ref = b.block_id := by
  intro gs
  induction gs with
  | nil =>
    intro idx units h u hu
    simp only [slidesGo] at h
    cases h
    simp at hu
  | cons g gs ih =>
    intro idx units h u hu e he
    simp only [slidesGo] at h
    split at h
    · cases h
    · rename_i els hels
      split at h
      · cases h
      · rename_i unit hunit
        split at h
        · cases h
        · rename_i units0 hunits0
          cases h
          rcases List.mem_cons.1 hu with rfl | hmem
          · obtain ⟨heq, _⟩ := mkStructureUnit_ok hunit
            rw [heq] at he
            obtain ⟨ht, b, hb, hr⟩ :=
              slideElementsGo_ok_mem _ _ g 0 _ els hels e he
            exact ⟨ht, b, ⟨g, List.mem_cons_self g gs, hb⟩, hr⟩
          · obtain ⟨ht, b, ⟨g', hg', hb⟩, hr⟩ :=
              ih (idx + 1) units0 hunits0 u hmem e he
            exact ⟨ht, b, ⟨g', List.mem_cons_of_mem g hg', hb⟩, hr⟩

/-- Page generation respects the ≤50-element bound on every unit. -/
theorem generate_pages_ok_le {content_blocks : List CipBlock}
    {images : List CipImage} {vd : String} {units : List StructureUnit}
    (h : generate_pages content_blocks images vd = .ok units) :
    ∀ u ∈ units, u.elements.length ≤ 50 := by
  intro u hu
  unfold generate_pages at h
  split at h
  · cases h
  · split at h
    · cases h
    · rename_i page hpage
      cases h
      rw [List.mem_singleton.1 hu]
      obtain ⟨he, hle⟩ := mkStructureUnit_ok hpage
      rw [he]
      exact hle

/-- Every element of every unit produced by page generation is a text
element referencing one of the content blocks. -/
theorem generate_pages_ok_mem {content_blocks : List CipBlock}
    {images : List CipImage} {vd : String} {units : List StructureUnit}
    (h : generate_pages content_blocks images vd = .ok units) :
    ∀ u ∈ units, ∀ e ∈ u.elements, e.type = ElementType.text ∧
      ∃ b ∈ content_blocks, e.content_ref = b.block_id := by
  intro u hu e he
  unfold generate_pages at h
  split at h
  · cases h
  · rename_i els hels
    split at h
    · cases h
    · rename_i page hpage
      cases h
      rw [List.mem_singleton.1 hu] at he
      obtain ⟨heq, _⟩ := mkStructureUnit_ok hpage
      rw [heq] at he
      exact pageElementsGo_ok_mem _ content_blocks 0 1 els hels e he

/-- Inversion of `generate_layout`: a produced LSP's structure is exactly
the outcome of slide or page generation on the CIP's blocks and images. -/
theorem generate_layout_ok_structure {cip : Cip} {dt : DocumentType}
    {mode : String} {lsp : Lsp} (h : generate_layout cip dt mode = .ok lsp) :
    (if dt = DocumentType.powerpoint then
        generate_slides cip.blocksOf cip.imagesOf cip.visualDensity
      else generate_pages cip.blocksOf cip.imagesOf cip.visualDensity) =
      .ok lsp.structure_units := by
  unfold generate_layout at h
  split at h
  · cases h
  · split at h
    · cases h
    · split at h
      · rename_i hdt
        simp only [] at h
        split at h
        · cases h
        · rename_i units hunits
          cases h
          rw [if_pos hdt]
          exact hunits
      · rename_i hdt
        simp only [] at h
        split at h
        · cases h
        · rename_i units hunits
          cases h
          rw [if_neg hdt]
          exact hunits

end Gestalt

/-! ## CIP validation at proposal creation (claim C3) -/

/-- C3, counterexample: a CIP that has `schema_version` and `session_id`
but *no content blocks at all* is accepted — proposal creation succeeds and
an LSP is produced and stored — contradicting the claim that missing
content blocks fail validation. -/
theorem C3_cip_validation_counterexample :
    isOkE (Gestalt.create_proposal emptyPropStore cipNoContent none).1 =
      true ∧
    ((Gestalt.create_proposal emptyPropStore cipNoContent none).2.specs).length
      = 1 ∧
    cipNoContent.blocksOf = [] := by
  exact ⟨by decide, by decide, by decide⟩

/-- C3, amended: proposal creation validates only the presence of
`schema_version` and `session_id`; when either is missing (and the
idempotency key is fresh or absent) it fails with the validation error and
leaves the proposal store — specifications included — untouched, so no LSP
is produced.  The presence of content blocks is not validated (see the
counterexample: a CIP without them is accepted, the blocks defaulting to
the empty list). -/
theorem C3_cip_validation_amended (st : Gestalt.PropStore)
    (cip : Gestalt.Cip) (key : Option String)
    (hkey : key.bind (fun k => st.idem.lookup k) = none)
    (hmiss : cip.schema_version = none ∨ cip.session_id = none) :
    Gestalt.create_proposal st cip key =
      (.error "Invalid CIP: missing required fields", st) := by
  simp only [Gestalt.create_proposal, hkey]
  rw [if_pos hmiss]

/-- Witness for C3 at a CIP missing its schema version. -/
theorem C3_cip_validation_amended_witness :
    Gestalt.create_proposal emptyPropStore cipMissingSchema none =
      (.error "Invalid CIP: missing required fields", emptyPropStore) :=
  C3_cip_validation_amended emptyPropStore cipMissingSchema none rfl
    (Or.inl rfl)

/-! ## StructureUnit element bound (claim C4) -/

/-- C4: every structure unit of every produced LSP carries at most 50
layout elements (enforced by the pydantic bound at `StructureUnit`
construction, for slides and pages alike). -/
theorem C4_structure_unit_bounded (cip : Gestalt.Cip)
    (dt : Gestalt.DocumentType) (mode : String) (u : Gestalt.StructureUnit)
    (hu : u ∈ Gestalt.structureOf (Gestalt.generate_layout cip dt mode)) :
    u.elements.length ≤ 50 := by
  cases hgen : Gestalt.generate_layout cip dt mode with
  | error e =>
    rw [hgen] at hu
    simp [Gestalt.structureOf] at hu
  | ok lsp =>
    rw [hgen] at hu
    simp only [Gestalt.structureOf] at hu
    have hs := Gestalt.generate_layout_ok_structure hgen
    by_cases hdt : dt = Gestalt.DocumentType.powerpoint
    · rw [if_pos hdt] at hs
      unfold Gestalt.generate_slides at hs
      exact Gestalt.slidesGo_ok_le _ _ _ 0 _ hs u hu
    · rw [if_neg hdt] at hs
      exact Gestalt.generate_pages_ok_le hs u hu

/-- Witness for C4: the single page generated for `cipNoContent`. -/
theorem C4_structure_unit_bounded_witness :
    unitC4 ∈ Gestalt.structureOf
      (Gestalt.generate_layout cipNoContent Gestalt.DocumentType.word
        "rule_only") ∧
    unitC4.elements.length ≤ 50 := by
  have hmem : unitC4 ∈ Gestalt.structureOf
      (Gestalt.generate_layout cipNoContent Gestalt.DocumentType.word
        "rule_only") :=
    headD_mem_of_ne_nil _ _ (by decide)
  exact ⟨hmem,
    C4_structure_unit_bounded cipNoContent Gestalt.DocumentType.word
      "rule_only" unitC4 hmem⟩

/-- C4, counterexample to the single-page clause: a paged CIP with 51
content blocks — far below the 1000-block submission limit — is *not* laid
out on a single page; layout generation fails outright on the 50-element
bound. -/
theorem C4_single_page_counterexample :
    isOkE (Gestalt.generate_layout cip51 Gestalt.DocumentType.word
      "rule_only") = false ∧
    cip51.blocksOf.length = 51 := by
  exact ⟨by decide, by decide⟩

/-! ## No image elements in the LSP (claim C10) -/

/-- C10: every layout element of every produced LSP — slides and pages
alike — is a text element whose content reference is the `block_id` of one
of the CIP's content blocks; in particular no image element ever appears in
the structure. -/
theorem C10_elements_text_only (cip : Gestalt.Cip)
    (dt : Gestalt.DocumentType) (mode : String) (u : Gestalt.StructureUnit)
    (hu : u ∈ Gestalt.structureOf (Gestalt.generate_layout cip dt mode))
    (e : Gestalt.LayoutElement) (he : e ∈ u.elements) :
    e.type = Gestalt.ElementType.text ∧
    ∃ b ∈ cip.blocksOf, e.content_ref = b.block_id := by
  cases hgen : Gestalt.generate_layout cip dt mode with
  | error err =>
    rw [hgen] at hu
    simp [Gestalt.structureOf] at hu
  | ok lsp =>
    rw [hgen] at hu
    simp only [Gestalt.structureOf] at hu
    have hs := Gestalt.generate_layout_ok_structure hgen
    by_cases hdt : dt = Gestalt.DocumentType.powerpoint
    · rw [if_pos hdt] at hs
      unfold Gestalt.generate_slides at hs
      obtain ⟨ht, b, ⟨g, hg, hb⟩, hr⟩ :=
        Gestalt.slidesGo_ok_mem _ _ _ 0 _ hs u hu e he
      exact ⟨ht, b,
        Gestalt.group_content_for_slides_mem cip.blocksOf g hg b hb, hr⟩
    · rw [if_neg hdt] at hs
      exact Gestalt.generate_pages_ok_mem hs u hu e he

/-- Witness for C10: the single element laid out for the one-paragraph CIP
`cipC10`. -/
theorem C10_elements_text_only_witness :
    elemC10.type = Gestalt.ElementType.text ∧
    ∃ b ∈ cipC10.blocksOf, elemC10.content_ref = b.block_id :=
  C10_elements_text_only cipC10 Gestalt.DocumentType.word "rule_only"
    unitC10 (headD_mem_of_ne_nil _ _ (by decide))
    elemC10 (headD_mem_of_ne_nil _ _ (by decide))

end DocBuilder
